import Mathlib

/-!
Shallow embedding of `src/homework.py`, a workout-report computation engine.

Modelling conventions:
* Python floats and ints are modelled as exact rationals (`ℚ`).
* Python exceptions are modelled by `Except Err`; the error taxonomy of the
  design document names them: `KeyError` on the factory lookup is
  `unknownWorkoutCode`, `TypeError` on constructor-argument binding is
  `arityMismatch`, `ZeroDivisionError` is `zeroDivision`,
  `NotImplementedError` is `notImplemented`.
* Python `x // y` on numbers is floor division, modelled with `Int.floor`.
* Python `f"{x:.3f}"` fixed-point rendering is modelled by `fmt3`:
  round-half-to-even at three decimal digits of the exact value, printed with
  a three-digit zero-padded fractional block.
-/

namespace Homework

/-- Embeds class `InfoMessage` of `homework.py`: the value object holding one
workout report (kind label plus four numeric fields). -/
structure InfoMessage where
  training_type : String
  duration : ℚ
  distance : ℚ
  speed : ℚ
  calories : ℚ
deriving DecidableEq, Repr

/-- A three-digit zero-padded decimal rendering of `k % 1000`. -/
def pad3 (k : ℕ) : String :=
  String.mk [Nat.digitChar (k / 100 % 10), Nat.digitChar (k / 10 % 10),
    Nat.digitChar (k % 10)]

/-- Nearest integer, ties to even: the rounding Python's fixed-point
formatting applies to the exact value. -/
def roundHalfEven (q : ℚ) : ℤ :=
  let f := ⌊q⌋
  let r := q - f
  if r < 1 / 2 then f
  else if 1 / 2 < r then f + 1
  else if f % 2 = 0 then f else f + 1

/-- The sign and integer part of the three-decimal rendering of `q`, where
`a` is the absolute value of `q` scaled by 1000 and rounded. -/
def fmt3IntPart (q : ℚ) (a : ℕ) : String :=
  (if q < 0 then "-" else "") ++ toString (a / 1000)

/-- Embeds Python's `f"{q:.3f}"`: fixed-point, exactly three decimal
digits. -/
def fmt3 (q : ℚ) : String :=
  fmt3IntPart q (roundHalfEven (q * 1000)).natAbs ++ "." ++
    pad3 ((roundHalfEven (q * 1000)).natAbs % 1000)

/-- Embeds `InfoMessage.get_message`: the single fixed-format report line.
The label text is exactly the source's (Russian) literal. -/
def InfoMessage.get_message (m : InfoMessage) : String :=
  "Тип тренировки: " ++ m.training_type ++ "; Длительность: " ++
    fmt3 m.duration ++ " ч.; Дистанция: " ++ fmt3 m.distance ++
    " км; Ср. скорость: " ++ fmt3 m.speed ++ " км/ч; Потрачено ккал: " ++
    fmt3 m.calories ++ "."

/-- Embeds the error conditions of `homework.py` under the names the design
document gives them (see the module docstring for the exception mapping). -/
inductive Err where
  | unknownWorkoutCode (code : String)
  | arityMismatch (expected received : ℕ) (code : String)
  | notImplemented
  | zeroDivision
deriving DecidableEq, Repr

/-- Embeds the class hierarchy rooted at `Training`: `base` is a direct
instance of class `Training` itself, the other constructors are the three
concrete subclasses with their extra fields. -/
inductive Training where
  | base (action duration weight : ℚ)
  | running (action duration weight : ℚ)
  | sportsWalking (action duration weight height : ℚ)
  | swimming (action duration weight length_pool count_pool : ℚ)
deriving DecidableEq, Repr

namespace Training

/-- Embeds `Training.LEN_STEP = 0.65`. -/
def LEN_STEP : ℚ := 0.65

/-- Embeds `Training.M_IN_KM = 1000`. -/
def M_IN_KM : ℚ := 1000

/-- Embeds `Swimming.LEN_STEP = 1.38` (the override in class `Swimming`). -/
def SWIM_LEN_STEP : ℚ := 1.38

/-- The `self.action` attribute. -/
def action : Training → ℚ
  | .base a _ _ => a
  | .running a _ _ => a
  | .sportsWalking a _ _ _ => a
  | .swimming a _ _ _ _ => a

/-- The `self.duration` attribute. -/
def duration : Training → ℚ
  | .base _ d _ => d
  | .running _ d _ => d
  | .sportsWalking _ d _ _ => d
  | .swimming _ d _ _ _ => d

/-- The `self.weight` attribute. -/
def weight : Training → ℚ
  | .base _ _ w => w
  | .running _ _ w => w
  | .sportsWalking _ _ w _ => w
  | .swimming _ _ w _ _ => w

/-- The runtime class name `self.__class__.__name__` used as the report's
kind label. -/
def className : Training → String
  | .base _ _ _ => "Training"
  | .running _ _ _ => "Running"
  | .sportsWalking _ _ _ _ => "SportsWalking"
  | .swimming _ _ _ _ _ => "Swimming"

/-- Embeds `get_distance`: the base method `action * Training.LEN_STEP /
Training.M_IN_KM`, overridden by `Swimming.get_distance` which uses
`self.LEN_STEP` (the swimming stroke length). -/
def get_distance : Training → ℚ
  | .swimming a _ _ _ _ => a * SWIM_LEN_STEP / M_IN_KM
  | t => t.action * LEN_STEP / M_IN_KM

/-- Embeds `get_mean_speed`: the base method `get_distance() / duration`,
overridden by `Swimming.get_mean_speed` which is `length_pool * count_pool /
M_IN_KM / duration`.  A zero duration raises `ZeroDivisionError`. -/
def get_mean_speed : Training → Except Err ℚ
  | .swimming _ d _ lp cp =>
      if d = 0 then .error .zeroDivision
      else .ok (lp * cp / M_IN_KM / d)
  | t =>
      if t.duration = 0 then .error .zeroDivision
      else .ok (t.get_distance / t.duration)

/-- Embeds `get_spent_calories` with its dynamic dispatch: the base method
raises `NotImplementedError`; each subclass applies its own formula.  In
`SportsWalking`, `** 2` then `//` is Python floor division by the height
(raising `ZeroDivisionError` on a zero height). -/
def get_spent_calories (t : Training) : Except Err ℚ :=
  match t with
  | .base _ _ _ => .error .notImplemented
  | .running _ d w =>
      match t.get_mean_speed with
      | .error e => .error e
      | .ok v => .ok ((18 * v - 20) * w / M_IN_KM * (d * 60))
  | .sportsWalking _ d w h =>
      match t.get_mean_speed with
      | .error e => .error e
      | .ok v =>
          if h = 0 then .error .zeroDivision
          else .ok ((0.035 * w + (⌊v ^ 2 / h⌋ : ℚ) * 0.029 * w) * (d * 60))
  | .swimming _ _ w _ _ =>
      match t.get_mean_speed with
      | .error e => .error e
      | .ok v => .ok ((v + 1.1) * 2 * w)

/-- Embeds `show_training_info`: builds the `InfoMessage` from the class
name, the duration and the three computed quantities, in the source's
evaluation order (speed before calories, so a zero duration surfaces as
`ZeroDivisionError` before the base class could raise
`NotImplementedError`). -/
def show_training_info (t : Training) : Except Err InfoMessage :=
  match t.get_mean_speed with
  | .error e => .error e
  | .ok v =>
      match t.get_spent_calories with
      | .error e => .error e
      | .ok c => .ok ⟨t.className, t.duration, t.get_distance, v, c⟩

/-- State-passing form of `show_training_info`: the Python method receives
`self` and may in principle mutate it; the method body assigns to no
attribute, so the post-call instance is returned unchanged alongside the
message. -/
def show_training_info_st (t : Training) : Except Err (InfoMessage × Training) :=
  match t.show_training_info with
  | .error e => .error e
  | .ok m => .ok (m, t)

end Training

/-- Embeds `read_package`: resolve the workout code against the fixed
mapping `{"SWM": Swimming, "RUN": Running, "WLK": SportsWalking}` (a missing
key raises, carrying the offending code), then bind the values positionally
to the constructor (a length mismatch raises before any construction). -/
def read_package (workout_type : String) (data : List ℚ) : Except Err Training :=
  if workout_type = "SWM" then
    match data with
    | [a, d, w, lp, cp] => .ok (.swimming a d w lp cp)
    | _ => .error (.arityMismatch 5 data.length "SWM")
  else if workout_type = "RUN" then
    match data with
    | [a, d, w] => .ok (.running a d w)
    | _ => .error (.arityMismatch 3 data.length "RUN")
  else if workout_type = "WLK" then
    match data with
    | [a, d, w, h] => .ok (.sportsWalking a d w h)
    | _ => .error (.arityMismatch 4 data.length "WLK")
  else .error (.unknownWorkoutCode workout_type)

/-- Equality of `Except` results is decidable when it is on both sides. -/
instance {ε α : Type} [DecidableEq ε] [DecidableEq α] : DecidableEq (Except ε α)
  | .ok x, .ok y =>
      if h : x = y then .isTrue (by rw [h])
      else .isFalse (fun hc => h (Except.ok.inj hc))
  | .ok _, .error _ => .isFalse (fun hc => Except.noConfusion hc)
  | .error _, .ok _ => .isFalse (fun hc => Except.noConfusion hc)
  | .error x, .error y =>
      if h : x = y then .isTrue (by rw [h])
      else .isFalse (fun hc => h (Except.error.inj hc))

end Homework

section Verification

attribute [local semireducible] Rat.mul Rat.inv Rat.add Rat.sub Rat.ofScientific

open Homework

/-- C2: an unrecognised workout code makes the factory fail with
`unknownWorkoutCode` carrying the offending code, and no `Training` instance
is produced. -/
theorem unknown_code_rejected (code : String) (data : List ℚ)
    (h1 : code ≠ "SWM") (h2 : code ≠ "RUN") (h3 : code ≠ "WLK") :
    read_package code data = .error (.unknownWorkoutCode code) ∧
    ∀ t : Training, read_package code data ≠ .ok t := by
  have he : read_package code data = .error (.unknownWorkoutCode code) := by
    simp [read_package, h1, h2, h3]
  refine ⟨he, fun t hc => ?_⟩
  rw [he] at hc
  exact Except.noConfusion hc

/-- C2 witness: the factory rejects the sample unknown code `XYZ`. -/
theorem unknown_code_rejected_witness :
    read_package "XYZ" [1, 2, 3] = .error (.unknownWorkoutCode "XYZ") :=
  (unknown_code_rejected "XYZ" [1, 2, 3] (by decide) (by decide) (by decide)).1

/-- C3: a recognised code with a value list of the wrong length makes the
factory fail with `arityMismatch` carrying the expected count, the received
count and the code, and no `Training` instance is produced. -/
theorem arity_mismatch_rejected (data : List ℚ) :
    (data.length ≠ 3 →
      read_package "RUN" data = .error (.arityMismatch 3 data.length "RUN") ∧
      ∀ t : Training, read_package "RUN" data ≠ .ok t) ∧
    (data.length ≠ 4 →
      read_package "WLK" data = .error (.arityMismatch 4 data.length "WLK") ∧
      ∀ t : Training, read_package "WLK" data ≠ .ok t) ∧
    (data.length ≠ 5 →
      read_package "SWM" data = .error (.arityMismatch 5 data.length "SWM") ∧
      ∀ t : Training, read_package "SWM" data ≠ .ok t) := by
  refine ⟨fun h => ?_, fun h => ?_, fun h => ?_⟩ <;>
    rcases data with _ | ⟨a, _ | ⟨b, _ | ⟨c, _ | ⟨d, _ | ⟨e, _ | ⟨f, rest⟩⟩⟩⟩⟩⟩ <;>
    simp_all [read_package]

/-- C3 witness: `RUN` with one extra value fails with
`arityMismatch 3 4 "RUN"`. -/
theorem arity_mismatch_rejected_witness :
    read_package "RUN" [15000, 1, 75, 234] = .error (.arityMismatch 3 4 "RUN") :=
  ((arity_mismatch_rejected [15000, 1, 75, 234]).1 (by decide)).1

/-- C7: computing calories on a direct instance of the abstract base class
always fails with `notImplemented`; no default value is ever produced. -/
theorem base_calories_not_implemented (a d w : ℚ) :
    (Training.base a d w).get_spent_calories = .error .notImplemented ∧
    ∀ c : ℚ, (Training.base a d w).get_spent_calories ≠ .ok c := by
  refine ⟨rfl, fun c hc => Except.noConfusion hc⟩

/-- C9: the factory performs no positivity validation: a zero duration is
accepted for every variant, and the resulting instance's speed computation
(and hence its report) hits the unguarded division by zero. -/
theorem zero_duration_reaches_division_by_zero (a w h lp cp : ℚ) :
    read_package "RUN" [a, 0, w] = .ok (.running a 0 w) ∧
    read_package "WLK" [a, 0, w, h] = .ok (.sportsWalking a 0 w h) ∧
    read_package "SWM" [a, 0, w, lp, cp] = .ok (.swimming a 0 w lp cp) ∧
    (Training.running a 0 w).get_mean_speed = .error .zeroDivision ∧
    (Training.sportsWalking a 0 w h).get_mean_speed = .error .zeroDivision ∧
    (Training.swimming a 0 w lp cp).get_mean_speed = .error .zeroDivision ∧
    (Training.running a 0 w).show_training_info = .error .zeroDivision ∧
    (Training.sportsWalking a 0 w h).show_training_info = .error .zeroDivision ∧
    (Training.swimming a 0 w lp cp).show_training_info = .error .zeroDivision := by
  refine ⟨?_, ?_, ?_, ?_, ?_, ?_, ?_, ?_, ?_⟩ <;>
    simp [read_package, Training.show_training_info, Training.get_mean_speed,
      Training.duration]

/-- C4: for every `Running` instance with a positive duration, distance is
`action * 0.65 / 1000`, mean speed is `distance / duration`, and calories
follow the formula `(18 * speed - 20) * weight / 1000 * duration * 60`. -/
theorem running_formulas (a d w : ℚ) (hd : 0 < d) :
    (Training.running a d w).get_distance = a * 0.65 / 1000 ∧
    ∃ v : ℚ, (Training.running a d w).get_mean_speed = Except.ok v ∧
      v = (Training.running a d w).get_distance / d ∧
      (Training.running a d w).get_spent_calories =
        Except.ok ((18 * v - 20) * w / 1000 * d * 60) := by
  have hne : d ≠ 0 := ne_of_gt hd
  refine ⟨rfl, a * 0.65 / 1000 / d, ?_, rfl, ?_⟩
  · simp [Training.get_mean_speed, Training.get_distance, Training.duration,
      Training.action, hne, Training.LEN_STEP, Training.M_IN_KM]
  · simp [Training.get_spent_calories, Training.get_mean_speed,
      Training.get_distance, Training.duration, Training.action, hne,
      Training.LEN_STEP, Training.M_IN_KM]
    ring

/-- C4 witness: the formulas evaluated on the sample Running input
`(15000, 1, 75)`. -/
theorem running_formulas_witness :
    (Training.running 15000 1 75).get_distance = 15000 * 0.65 / 1000 ∧
    ∃ v : ℚ, (Training.running 15000 1 75).get_mean_speed = Except.ok v ∧
      v = (Training.running 15000 1 75).get_distance / 1 ∧
      (Training.running 15000 1 75).get_spent_calories =
        Except.ok ((18 * v - 20) * 75 / 1000 * 1 * 60) :=
  running_formulas 15000 1 75 (by norm_num)

/-- C5: `Swimming` mean speed is pool-lap based
(`length_pool * count_pool / 1000 / duration`, not reusing the distance),
distance uses the swimming stroke constant 1.38, and the sample input
`(720, 1, 80, 25, 40)` yields distance 0.9936, speed 1 and calories
`(1 + 1.1) * 2 * 80 = 336`. -/
theorem swimming_formulas (a d w lp cp : ℚ) (hd : 0 < d) :
    (Training.swimming a d w lp cp).get_mean_speed =
      Except.ok (lp * cp / 1000 / d) ∧
    (Training.swimming a d w lp cp).get_distance = a * 1.38 / 1000 ∧
    (Training.swimming 720 1 80 25 40).get_distance = 0.9936 ∧
    (Training.swimming 720 1 80 25 40).get_mean_speed = Except.ok 1 ∧
    (Training.swimming 720 1 80 25 40).get_spent_calories =
      Except.ok ((1 + 1.1) * 2 * 80) ∧
    ((1 + 1.1) * 2 * 80 : ℚ) = 336 := by
  have hne : d ≠ 0 := ne_of_gt hd
  refine ⟨?_, rfl, by decide, by decide, by decide, by decide⟩
  simp [Training.get_mean_speed, hne, Training.M_IN_KM]

/-- C5 witness: the Swimming formulas at the sample input
`(720, 1, 80, 25, 40)`. -/
theorem swimming_formulas_witness :
    (Training.swimming 720 1 80 25 40).get_mean_speed =
      Except.ok (25 * 40 / 1000 / 1) ∧
    (Training.swimming 720 1 80 25 40).get_distance = 720 * 1.38 / 1000 ∧
    (Training.swimming 720 1 80 25 40).get_distance = 0.9936 ∧
    (Training.swimming 720 1 80 25 40).get_mean_speed = Except.ok 1 ∧
    (Training.swimming 720 1 80 25 40).get_spent_calories =
      Except.ok ((1 + 1.1) * 2 * 80) ∧
    ((1 + 1.1) * 2 * 80 : ℚ) = 336 :=
  swimming_formulas 720 1 80 25 40 (by norm_num)

/-- C6: whenever a `SportsWalking` instance with nonzero height has a mean
speed, its calories are
`(0.035 * weight + floor(speed ^ 2 / height) * 0.029 * weight) * duration * 60`
with a floor (toward negative infinity) division; moreover on the input
`(9000, 1, 75, 180)` the floor quotient makes the result 157.5 while
ordinary division would give a different value, and on height `-180` the
negative quotient rounds down to `-1` (calories 27), not up toward zero. -/
theorem walking_floor_division (a d w h : ℚ) (hh : h ≠ 0) :
    (∀ v : ℚ, (Training.sportsWalking a d w h).get_mean_speed = Except.ok v →
      (Training.sportsWalking a d w h).get_spent_calories =
        Except.ok ((0.035 * w + (⌊v ^ 2 / h⌋ : ℚ) * 0.029 * w) * d * 60)) ∧
    (Training.sportsWalking 9000 1 75 180).get_mean_speed = Except.ok 5.85 ∧
    (Training.sportsWalking 9000 1 75 180).get_spent_calories =
      Except.ok 157.5 ∧
    (0.035 * 75 + ((5.85 : ℚ) ^ 2 / 180) * 0.029 * 75) * 1 * 60 ≠ (157.5 : ℚ) ∧
    ⌊(5.85 : ℚ) ^ 2 / 180⌋ = 0 ∧
    (Training.sportsWalking 9000 1 75 (-180)).get_spent_calories =
      Except.ok 27 ∧
    ⌊(5.85 : ℚ) ^ 2 / (-180)⌋ = -1 := by
  refine ⟨fun v hv => ?_, by decide, by decide, by decide, by decide,
    by decide, by decide⟩
  simp only [Training.get_spent_calories, hv]
  rw [if_neg hh]
  congr 1
  ring

/-- C6 witness: the floor-division calorie formula at the sample input
`(9000, 1, 75, 180)`. -/
theorem walking_floor_division_witness :
    (Training.sportsWalking 9000 1 75 180).get_spent_calories =
      Except.ok ((0.035 * 75 + (⌊(5.85 : ℚ) ^ 2 / 180⌋ : ℚ) * 0.029 * 75)
        * 1 * 60) :=
  (walking_floor_division 9000 1 75 180 (by norm_num)).1 5.85 (by decide)

/-- C10: calories are not guaranteed non-negative: any Running input with
strictly positive fields whose mean speed is below 20/18 km/h burns a
strictly negative number of calories. -/
theorem running_negative_calories (a d w : ℚ) (ha : 0 < a) (hd : 0 < d)
    (hw : 0 < w) (hs : a * 0.65 / 1000 / d < 20 / 18) :
    ∃ c : ℚ, (Training.running a d w).get_spent_calories = Except.ok c ∧
      c < 0 := by
  have hne : d ≠ 0 := ne_of_gt hd
  refine ⟨(18 * (a * 0.65 / 1000 / d) - 20) * w / 1000 * (d * 60), ?_, ?_⟩
  · simp [Training.get_spent_calories, Training.get_mean_speed,
      Training.get_distance, Training.duration, Training.action, hne,
      Training.LEN_STEP, Training.M_IN_KM]
  · have h1 : 18 * (a * 0.65 / 1000 / d) - 20 < 0 := by
      nlinarith [hs]
    have h2 : (0 : ℚ) < w / 1000 * (d * 60) := by positivity
    have h3 : (18 * (a * 0.65 / 1000 / d) - 20) * w / 1000 * (d * 60) =
        (18 * (a * 0.65 / 1000 / d) - 20) * (w / 1000 * (d * 60)) := by
      ring
    rw [h3]
    exact mul_neg_of_neg_of_pos h1 h2

/-- C10 witness: the Running input `(100, 1, 75)` has all fields positive,
mean speed below 20/18, and strictly negative calories. -/
theorem running_negative_calories_witness :
    ∃ c : ℚ, (Training.running 100 1 75).get_spent_calories = Except.ok c ∧
      c < 0 :=
  running_negative_calories 100 1 75 (by norm_num) (by norm_num) (by norm_num)
    (by norm_num)

/-- C1 counterexample: the report line is not the English template the claim
states; on a concrete report the rendered line differs from the claimed
one. -/
theorem get_message_not_english_template :
    (InfoMessage.mk "Swimming" 1 0.9936 1 336).get_message ≠
      "Training type: Swimming; Duration: 1.000 h; Distance: 0.994 km; Avg speed: 1.000 km/h; Calories: 336.000." := by
  decide

/-- C1 amended: the formatter renders exactly the single line
`Тип тренировки: (kind); Длительность: (duration) ч.; Дистанция: (distance)
км; Ср. скорость: (speed) км/ч; Потрачено ккал: (calories).` where each
numeric field is rendered fixed-point with exactly three digits after the
decimal point, byte-for-byte determined by the field values; on the sample
Swimming report the rendered line is the expected literal. -/
theorem get_message_format :
    (∀ m : InfoMessage, m.get_message =
      "Тип тренировки: " ++ m.training_type ++ "; Длительность: " ++
        fmt3 m.duration ++ " ч.; Дистанция: " ++ fmt3 m.distance ++
        " км; Ср. скорость: " ++ fmt3 m.speed ++ " км/ч; Потрачено ккал: " ++
        fmt3 m.calories ++ ".") ∧
    (∀ q : ℚ, ∃ s : String, ∃ k : ℕ,
      fmt3 q = s ++ "." ++ pad3 k ∧ (pad3 k).length = 3) ∧
    (InfoMessage.mk "Swimming" 1 0.9936 1 336).get_message =
      "Тип тренировки: Swimming; Длительность: 1.000 ч.; Дистанция: 0.994 км; Ср. скорость: 1.000 км/ч; Потрачено ккал: 336.000." := by
  refine ⟨fun m => rfl, fun q => ⟨_, _, rfl, rfl⟩, by decide⟩

/-- C8: producing the report mutates nothing and is deterministic: if one
call on an instance succeeds with a message and a post-call instance, the
post-call instance is the original one, and a second call on it returns the
identical message and instance. -/
theorem report_idempotent (t : Training) (m : InfoMessage) (t' : Training)
    (h : t.show_training_info_st = Except.ok (m, t')) :
    t' = t ∧ t'.show_training_info_st = Except.ok (m, t') := by
  cases hs : t.show_training_info with
  | error e =>
      rw [Training.show_training_info_st, hs] at h
      exact Except.noConfusion h
  | ok m0 =>
      rw [Training.show_training_info_st, hs] at h
      obtain ⟨hm, ht⟩ : m0 = m ∧ t = t' := by
        have := Except.ok.inj h
        exact ⟨congrArg Prod.fst this, congrArg Prod.snd this⟩
      subst hm
      subst ht
      exact ⟨rfl, by rw [Training.show_training_info_st, hs]⟩

/-- C8 witness: two successive report calls on the sample Swimming instance
return the identical message and leave the instance unchanged. -/
theorem report_idempotent_witness :
    Training.swimming 720 1 80 25 40 = Training.swimming 720 1 80 25 40 ∧
    (Training.swimming 720 1 80 25 40).show_training_info_st =
      Except.ok (InfoMessage.mk "Swimming" 1 0.9936 1 336,
        Training.swimming 720 1 80 25 40) :=
  report_idempotent (Training.swimming 720 1 80 25 40)
    (InfoMessage.mk "Swimming" 1 0.9936 1 336)
    (Training.swimming 720 1 80 25 40) (by decide)

end Verification
